import Mathlib

/-!
Shallow embedding of the MindfulAI screening application (src/psychapp.py):
the conversation-state and turn-taking protocol. The language model, the
speech-to-text backend and the two text-to-speech backends are external
network services; each call's outcome is passed in as an oracle function,
and every handler is a pure state transformer on the session state.
-/

namespace PsychApp

/-- Binary audio payloads (Python `bytes` / `BytesIO` contents). -/
abbrev Audio := List Nat

/-- One entry of `st.session_state.messages` (the visible transcript /
TurnLog): a role, the displayed content, and the optional attached audio
(only assistant entries carry an `audio` key; absence is modelled as
`none`). -/
structure Message where
  role : String
  content : String
  audio : Option Audio
deriving Repr, DecidableEq

/-- One entry of `st.session_state.chat_history` (the model dialogue
context): a role and a list of text parts, exactly as built by
`psychapp.py` (every append uses a single text part). -/
structure DialogueBlock where
  role : String
  parts : List String
deriving Repr, DecidableEq

/-- The Streamlit session state fields that `psychapp.py` reads and
writes: `chat_history`, `messages`, `last_processed_audio`,
`report_generated`, `mode`, and the optional `final_report_json`. -/
structure SessionState where
  chat_history : List DialogueBlock
  messages : List Message
  last_processed_audio : Option Audio
  report_generated : Bool
  mode : String
  final_report_json : Option String
deriving Repr, DecidableEq

/-- The system prompt seeded as the first `chat_history` entry
(lines 67-74 of psychapp.py). -/
def system_prompt : String :=
  "System: You are Dr. Gemini, an empathetic psychological screening assistant. Your goal is to screen for Depression (PHQ-9) and Anxiety (GAD-7). PROTOCOL:\n1. Ask exactly ONE question at a time.\n2. Do not diagnose.\n3. Keep responses concise (1-2 sentences) suitable for voice conversation."

/-- The fixed welcome message (line 79 of psychapp.py). -/
def welcome_msg : String :=
  "Hello. I am here to listen. How have you been feeling lately?"

/-- The two seed entries of `chat_history`: the system instruction posed
as a user block and the model acknowledgment (lines 75-76). -/
def seedBlocks : List DialogueBlock :=
  [⟨"user", [system_prompt]⟩, ⟨"model", ["Understood."]⟩]

/-- The session state right after the SESSION STATE SETUP section
(lines 65-90) runs on a fresh session: seed pair plus welcome in
`chat_history`, the welcome message in `messages`, no processed audio,
report not generated, chat mode, no stored report payload. -/
def initState : SessionState where
  chat_history := seedBlocks ++ [⟨"model", [welcome_msg]⟩]
  messages := [⟨"assistant", welcome_msg, none⟩]
  last_processed_audio := none
  report_generated := false
  mode := "chat"
  final_report_json := none

/-- Outcomes of the external calls made during one turn: the chat model
(`model.generate_content` on the full history, then `.text`), the two
speech-synthesis backends (Edge TTS and gTTS), and the transcription
model. `Except.error` models the Python call raising an exception. -/
structure TurnOracles where
  llm : List DialogueBlock → Except String String
  neural : String → Except String Audio
  gtts : String → Except String Audio
  transcription : Audio → Except String String

/-- `get_audio_bytes` (lines 105-124): try the neural voice first, fall
back to gTTS, return `none` if both raise. The Python function catches
every exception internally, so it never raises. -/
def get_audio_bytes (o : TurnOracles) (text : String) : Option Audio :=
  match o.neural text with
  | Except.ok a => some a
  | Except.error _ =>
    match o.gtts text with
    | Except.ok a => some a
    | Except.error _ => none

/-- Python `str.strip()`: drop whitespace from both ends. -/
def pyStrip (s : String) : String :=
  String.mk
    (((s.data.dropWhile Char.isWhitespace).reverse.dropWhile
        Char.isWhitespace).reverse)

/-- `transcribe_audio` (lines 126-135): return the stripped transcription
text, or the sentinel `"[Unintelligible Audio]"` if the backend raises. -/
def transcribe_audio (o : TurnOracles) (audio_bytes : Audio) : String :=
  match o.transcription audio_bytes with
  | Except.ok t => pyStrip t
  | Except.error _ => "[Unintelligible Audio]"

/-- `process_ai_response` (lines 137-154): call the model on the full
`chat_history`; on success synthesize audio best-effort, append the
assistant entry to `messages` and the model block to `chat_history` and
return `true`; if the model call raises, show the error, change nothing
and return `false`. -/
def process_ai_response (o : TurnOracles) (s : SessionState) :
    SessionState × Bool :=
  match o.llm s.chat_history with
  | Except.error _ => (s, false)
  | Except.ok ai_text =>
    ({ s with
        messages := s.messages ++
          [⟨"assistant", ai_text, get_audio_bytes o ai_text⟩],
        chat_history := s.chat_history ++ [⟨"model", [ai_text]⟩] },
      true)

/-- The chat-view text turn handler (lines 217-230): the chat view runs
only when the mode is not "voice"; `st.chat_input` is rendered only when
the report is not generated; a falsy (empty) input submits nothing. On
input: append the user entry to both logs, then run
`process_ai_response`. -/
def submit_text_turn (text_val : String) (o : TurnOracles)
    (s : SessionState) : SessionState :=
  if s.mode = "voice" then s
  else if s.report_generated then s
  else if text_val = "" then s
  else
    (process_ai_response o
      { s with
        messages := s.messages ++ [⟨"user", text_val, none⟩],
        chat_history := s.chat_history ++ [⟨"user", [text_val]⟩] }).1

/-- The voice-view audio handler (lines 159-181): runs only in voice
mode; a missing recording or a recording equal to `last_processed_audio`
is ignored; otherwise record the value as processed, transcribe, append
the user entry (with a microphone prefix in `messages`, plain text in
`chat_history`) and run `process_ai_response`. Note there is no
`report_generated` guard on this path. -/
def submit_audio_turn (audio_val : Option Audio) (o : TurnOracles)
    (s : SessionState) : SessionState :=
  if s.mode = "voice" then
    match audio_val with
    | none => s
    | some a =>
      if some a = s.last_processed_audio then s
      else
        (process_ai_response o
          { s with
            last_processed_audio := some a,
            messages := s.messages ++
              [⟨"user", "🎙️ " ++ transcribe_audio o a, none⟩],
            chat_history := s.chat_history ++
              [⟨"user", [transcribe_audio o a]⟩] }).1
  else s

/-- The transcript string built by the report handler (line 236):
`"\n".join(f"{m['role'].upper()}: {m.get('content','')}")`. -/
def transcript_text (messages : List Message) : String :=
  String.intercalate "\n"
    (messages.map (fun m => m.role.toUpper ++ ": " ++ m.content))

/-- The report prompt (lines 237-250): the serialized transcript followed
by the fixed JSON-schema instruction. -/
def report_prompt (messages : List Message) : String :=
  transcript_text messages ++
  "\n\nCOMMAND: Act as a Senior Clinical Analyst. Analyze the transcript above. Output strictly valid JSON:\n" ++
  "\x7b\n" ++
  "  \"clinical_summary\": \"string\",\n" ++
  "  \"risk_assessment\": [\n" ++
  "    \x7b\"Condition\": \"Depression\", \"Risk\": \"Low/Med/High\", \"Notes\": \"text\"\x7d,\n" ++
  "    \x7b\"Condition\": \"Anxiety\", \"Risk\": \"Low/Med/High\", \"Notes\": \"text\"\x7d,\n" ++
  "    \x7b\"Condition\": \"Burnout\", \"Risk\": \"Low/Med/High\", \"Notes\": \"text\"\x7d\n" ++
  "  ],\n" ++
  "  \"recommendations\": [\"string\", \"string\"]\n" ++
  "\x7d"

/-- The "End Session & Generate Report" handler (lines 232-257): the
button exists only in the chat view and only while `report_generated` is
false. On a successful model call it stores the raw `resp.text` in
`final_report_json` and sets `report_generated := true` — with no JSON
validation and no minimum-transcript-length check; if the call raises,
nothing changes. -/
def end_session (llm : String → Except String String)
    (s : SessionState) : SessionState :=
  if s.mode = "voice" then s
  else if s.report_generated then s
  else
    match llm (report_prompt s.messages) with
    | Except.ok text =>
      { s with final_report_json := some text, report_generated := true }
    | Except.error _ => s

/-- "Reset App" / "Start New Patient" (lines 276-278, 283-285):
`st.session_state.clear()` followed by `st.rerun()`; the rerun
re-executes the SESSION STATE SETUP section, so the observable
post-reset state is exactly the fresh-session state. -/
def reset (_ : SessionState) : SessionState := initState

/-! ### JSON parsing (`json.loads`, used by the report display at line 261) -/

/-- A parsed JSON value. Number lexemes are kept as strings; the report
display only inspects strings, arrays and objects. -/
inductive Json where
  | null : Json
  | bool : Bool → Json
  | num : String → Json
  | str : String → Json
  | arr : List Json → Json
  | obj : List (String × Json) → Json

/-- JSON whitespace characters. -/
def isJsonWs (c : Char) : Bool :=
  c = ' ' || c = '\t' || c = '\n' || c = '\r'

/-- Drop leading JSON whitespace. -/
def skipWs : List Char → List Char
  | [] => []
  | c :: cs => if isJsonWs c then skipWs cs else c :: cs

/-- Value of one hexadecimal digit, if any. -/
def hexVal (c : Char) : Option Nat :=
  if 48 ≤ c.toNat ∧ c.toNat ≤ 57 then some (c.toNat - 48)
  else if 97 ≤ c.toNat ∧ c.toNat ≤ 102 then some (c.toNat - 97 + 10)
  else if 65 ≤ c.toNat ∧ c.toNat ≤ 70 then some (c.toNat - 65 + 10)
  else none

/-- Consume an expected literal character sequence. -/
def eatLiteral : List Char → List Char → Option (List Char)
  | [], cs => some cs
  | p :: ps, c :: cs => if c = p then eatLiteral ps cs else none
  | _ :: _, [] => none

/-- Parse the body of a JSON string after the opening quote, handling
escapes; returns the decoded characters and the input left after the
closing quote. -/
def parseStringBody : Nat → List Char → Option (List Char × List Char)
  | 0, _ => none
  | _, [] => none
  | fuel + 1, c :: cs =>
    if c = '\"' then some ([], cs)
    else if c = '\\' then
      match cs with
      | [] => none
      | e :: cs2 =>
        if e = 'u' then
          match cs2 with
          | a :: b :: c2 :: d :: cs3 =>
            match hexVal a, hexVal b, hexVal c2, hexVal d with
            | some ha, some hb, some hc, some hd =>
              match parseStringBody fuel cs3 with
              | some (body, rem) =>
                some (Char.ofNat (ha * 4096 + hb * 256 + hc * 16 + hd) :: body, rem)
              | none => none
            | _, _, _, _ => none
          | _ => none
        else
          match
            (if e = '\"' then some e
             else if e = '\\' then some e
             else if e = '/' then some e
             else if e = 'b' then some (Char.ofNat 8)
             else if e = 'f' then some (Char.ofNat 12)
             else if e = 'n' then some '\n'
             else if e = 'r' then some '\r'
             else if e = 't' then some '\t'
             else none) with
          | some decoded =>
            match parseStringBody fuel cs2 with
            | some (body, rem) => some (decoded :: body, rem)
            | none => none
          | none => none
    else
      match parseStringBody fuel cs with
      | some (body, rem) => some (c :: body, rem)
      | none => none

/-- Take a maximal run of decimal digits. -/
def takeDigits : List Char → List Char × List Char
  | [] => ([], [])
  | c :: cs =>
    if c.isDigit then
      let (ds, rest) := takeDigits cs
      (c :: ds, rest)
    else ([], c :: cs)

/-- Parse an optional fraction part (`.` followed by digits). -/
def parseFrac (cs : List Char) : Option (List Char × List Char) :=
  match cs with
  | '.' :: rest =>
    match rest with
    | d :: _ =>
      if d.isDigit then
        let (ds, rest2) := takeDigits rest
        some ('.' :: ds, rest2)
      else none
    | [] => none
  | _ => some ([], cs)

/-- Parse an optional exponent part. -/
def parseExp (cs : List Char) : Option (List Char × List Char) :=
  match cs with
  | e :: rest =>
    if e = 'e' ∨ e = 'E' then
      let (sgn, rest1) :=
        match rest with
        | '+' :: r => (['+'], r)
        | '-' :: r => (['-'], r)
        | _ => (([] : List Char), rest)
      match rest1 with
      | d :: _ =>
        if d.isDigit then
          let (ds, rest2) := takeDigits rest1
          some (e :: (sgn ++ ds), rest2)
        else none
      | [] => none
    else some ([], cs)
  | [] => some ([], cs)

/-- Parse a JSON number lexeme per the JSON grammar. -/
def parseNumber (cs : List Char) : Option (List Char × List Char) :=
  let (sign, cs1) :=
    match cs with
    | '-' :: rest => ((['-'] : List Char), rest)
    | _ => (([] : List Char), cs)
  match cs1 with
  | [] => none
  | d :: ds =>
    if d.isDigit then
      let (intPart, rest) :=
        if d = '0' then ([d], ds)
        else
          let (more, r) := takeDigits ds
          (d :: more, r)
      match parseFrac rest with
      | none => none
      | some (fracPart, rest2) =>
        match parseExp rest2 with
        | none => none
        | some (expPart, rest3) =>
          some (sign ++ intPart ++ fracPart ++ expPart, rest3)
    else none

mutual

/-- Parse one JSON value, fuel-bounded. -/
def parseValue : Nat → List Char → Option (Json × List Char)
  | 0, _ => none
  | fuel + 1, cs0 =>
    match skipWs cs0 with
    | [] => none
    | c :: rest =>
      if c = '\"' then
        match parseStringBody (rest.length + 1) rest with
        | some (body, rem) => some (Json.str (String.mk body), rem)
        | none => none
      else if c = 't' then
        match eatLiteral ['r', 'u', 'e'] rest with
        | some rem => some (Json.bool true, rem)
        | none => none
      else if c = 'f' then
        match eatLiteral ['a', 'l', 's', 'e'] rest with
        | some rem => some (Json.bool false, rem)
        | none => none
      else if c = 'n' then
        match eatLiteral ['u', 'l', 'l'] rest with
        | some rem => some (Json.null, rem)
        | none => none
      else if c = '[' then
        match skipWs rest with
        | ']' :: rem => some (Json.arr [], rem)
        | cs1 =>
          match parseValue fuel cs1 with
          | some (v, rem) => parseArrayRest fuel [v] rem
          | none => none
      else if c = Char.ofNat 123 then
        match skipWs rest with
        | d :: rem1 =>
          if d = Char.ofNat 125 then some (Json.obj [], rem1)
          else if d = '\"' then
            match parseStringBody (rem1.length + 1) rem1 with
            | some (key, rem2) => parsePairValue fuel [] (String.mk key) rem2
            | none => none
          else none
        | [] => none
      else
        match parseNumber (c :: rest) with
        | some (lex, rem) => some (Json.num (String.mk lex), rem)
        | none => none

/-- Parse the remaining elements of an array after the first value. -/
def parseArrayRest : Nat → List Json → List Char → Option (Json × List Char)
  | 0, _, _ => none
  | fuel + 1, acc, cs =>
    match skipWs cs with
    | ']' :: rem => some (Json.arr acc.reverse, rem)
    | ',' :: rem =>
      match parseValue fuel rem with
      | some (v, rem2) => parseArrayRest fuel (v :: acc) rem2
      | none => none
    | _ => none

/-- After an object key, parse the `:` and the value, then continue. -/
def parsePairValue : Nat → List (String × Json) → String → List Char →
    Option (Json × List Char)
  | 0, _, _, _ => none
  | fuel + 1, acc, key, cs =>
    match skipWs cs with
    | ':' :: rem =>
      match parseValue fuel rem with
      | some (v, rem2) => parseObjectRest fuel ((key, v) :: acc) rem2
      | none => none
    | _ => none

/-- Parse the continuation of an object after a key/value pair. -/
def parseObjectRest : Nat → List (String × Json) → List Char →
    Option (Json × List Char)
  | 0, _, _ => none
  | fuel + 1, acc, cs =>
    match skipWs cs with
    | c :: rem =>
      if c = Char.ofNat 125 then some (Json.obj acc.reverse, rem)
      else if c = ',' then
        match skipWs rem with
        | k :: rem2 =>
          if k = '\"' then
            match parseStringBody (rem2.length + 1) rem2 with
            | some (key, rem3) => parsePairValue fuel acc (String.mk key) rem3
            | none => none
          else none
        | [] => none
      else none
    | [] => none

end

/-- `json.loads`: parse the whole string as a single JSON document;
trailing non-whitespace makes the parse fail. -/
def json_loads (s : String) : Option Json :=
  match parseValue (2 * s.length + 16) s.data with
  | some (v, rem) => if skipWs rem = [] then some v else none
  | none => none

/-- The report display (lines 259-274): when the report is generated and
a payload is stored, `json.loads` the payload; a parse failure shows
"Could not parse report." and renders no report, while the raw payload
stays stored. Returns the parsed report, `none` when nothing is
rendered. -/
def display_report (s : SessionState) : Option Json :=
  if s.report_generated then
    match s.final_report_json with
    | some raw => json_loads raw
    | none => none
  else none

/-- The "Voice Mode" button in the chat view (lines 203-205). -/
def enter_voice_mode (s : SessionState) : SessionState :=
  { s with mode := "voice" }

/-- The "Exit Voice Mode" button in the voice view (lines 191-193). -/
def exit_voice_mode (s : SessionState) : SessionState :=
  { s with mode := "chat" }

/-- One text turn of a run: the submitted text together with the
outcomes of the external calls made during that turn. -/
structure TextTurn where
  text : String
  oracles : TurnOracles

/-- Run a sequence of text turns through the chat-view handler. -/
def run_text_turns : List TextTurn → SessionState → SessionState
  | [], s => s
  | t :: ts, s => run_text_turns ts (submit_text_turn t.text t.oracles s)

/-- The session states reachable from a fresh session through the
application's handlers: text turns, audio turns, report generation,
reset, and the two mode-switch buttons. -/
inductive Reachable : SessionState → Prop where
  | fresh : Reachable initState
  | text_turn (t : String) (o : TurnOracles) {s : SessionState} :
      Reachable s → Reachable (submit_text_turn t o s)
  | audio_turn (a : Option Audio) (o : TurnOracles) {s : SessionState} :
      Reachable s → Reachable (submit_audio_turn a o s)
  | report (llm : String → Except String String) {s : SessionState} :
      Reachable s → Reachable (end_session llm s)
  | reset_app {s : SessionState} : Reachable s → Reachable (reset s)
  | voice_on {s : SessionState} : Reachable s → Reachable (enter_voice_mode s)
  | voice_off {s : SessionState} : Reachable s → Reachable (exit_voice_mode s)

/-- Oracles for a healthy turn: the chat model answers, both TTS
backends are down (synthesis is best-effort), transcription works. -/
def okOracles : TurnOracles where
  llm := fun _ => Except.ok "Thank you for sharing."
  neural := fun _ => Except.error "edge tts offline"
  gtts := fun _ => Except.error "gtts offline"
  transcription := fun _ => Except.ok "I feel anxious"

/-- Oracles for a turn whose chat-model call raises. -/
def failLlmOracles : TurnOracles where
  llm := fun _ => Except.error "network unreachable"
  neural := fun _ => Except.error "edge tts offline"
  gtts := fun _ => Except.error "gtts offline"
  transcription := fun _ => Except.ok "I feel anxious"

/-- Oracles for a turn whose transcription backend raises. -/
def failTransOracles : TurnOracles where
  llm := fun _ => Except.ok "Could you repeat that?"
  neural := fun _ => Except.error "edge tts offline"
  gtts := fun _ => Except.error "gtts offline"
  transcription := fun _ => Except.error "stt backend down"

/-- Oracles whose neural TTS backend succeeds. -/
def neuralOkOracles : TurnOracles where
  llm := fun _ => Except.ok "How are you sleeping?"
  neural := fun _ => Except.ok [1, 2, 3]
  gtts := fun _ => Except.ok [4, 5]
  transcription := fun _ => Except.ok "fine"

/-- Oracles whose neural TTS backend raises but whose gTTS backend
succeeds. -/
def gttsOnlyOracles : TurnOracles where
  llm := fun _ => Except.ok "How are you sleeping?"
  neural := fun _ => Except.error "edge tts offline"
  gtts := fun _ => Except.ok [4, 5]
  transcription := fun _ => Except.ok "fine"

/-- A fresh session switched to voice mode with one audio value already
processed. -/
def voiceRepeatState : SessionState :=
  { initState with mode := "voice", last_processed_audio := some [3, 1, 4] }

/-- A fresh session switched to voice mode. -/
def voiceState : SessionState :=
  { initState with mode := "voice" }

/-- A finalized session that was then switched to voice mode (reachable:
generate the report in chat mode, then click the Voice Mode button). -/
def finalizedVoiceState : SessionState :=
  { initState with mode := "voice", report_generated := true,
                   final_report_json := some "raw report payload" }

/-- A finalized chat-mode session. -/
def finalizedChatState : SessionState :=
  { initState with report_generated := true,
                   final_report_json := some "raw report payload" }

/-! ### Helper lemmas -/

theorem process_ai_response_ok (o : TurnOracles) (s : SessionState)
    (r : String) (h : o.llm s.chat_history = Except.ok r) :
    process_ai_response o s =
      ({ s with
          messages := s.messages ++
            [⟨"assistant", r, get_audio_bytes o r⟩],
          chat_history := s.chat_history ++ [⟨"model", [r]⟩] }, true) := by
  unfold process_ai_response
  rw [h]

theorem process_ai_response_error (o : TurnOracles) (s : SessionState)
    (e : String) (h : o.llm s.chat_history = Except.error e) :
    process_ai_response o s = (s, false) := by
  unfold process_ai_response
  rw [h]

theorem process_chat_shape (o : TurnOracles) (s : SessionState) :
    ∃ xs, (process_ai_response o s).1.chat_history = s.chat_history ++ xs := by
  unfold process_ai_response
  cases o.llm s.chat_history with
  | error e => exact ⟨[], by simp⟩
  | ok r => exact ⟨[⟨"model", [r]⟩], rfl⟩

theorem submit_text_turn_ok (t : String) (o : TurnOracles) (s : SessionState)
    (r : String)
    (hmode : s.mode = "chat") (hrg : s.report_generated = false)
    (ht : ¬ t = "")
    (hr : o.llm (s.chat_history ++ [⟨"user", [t]⟩]) = Except.ok r) :
    submit_text_turn t o s =
      { s with
        messages := s.messages ++ [⟨"user", t, none⟩] ++
          [⟨"assistant", r, get_audio_bytes o r⟩],
        chat_history := s.chat_history ++ [⟨"user", [t]⟩] ++
          [⟨"model", [r]⟩] } := by
  have hpe := process_ai_response_ok o
    { s with
      messages := s.messages ++ [⟨"user", t, none⟩],
      chat_history := s.chat_history ++ [⟨"user", [t]⟩] } r (by simpa using hr)
  simp only [hmode, hrg] at hpe
  simp [submit_text_turn, hmode, hrg, ht, hpe]

theorem submit_text_turn_error (t : String) (o : TurnOracles)
    (s : SessionState) (e : String)
    (hmode : s.mode = "chat") (hrg : s.report_generated = false)
    (ht : ¬ t = "")
    (he : o.llm (s.chat_history ++ [⟨"user", [t]⟩]) = Except.error e) :
    submit_text_turn t o s =
      { s with
        messages := s.messages ++ [⟨"user", t, none⟩],
        chat_history := s.chat_history ++ [⟨"user", [t]⟩] } := by
  have hpe := process_ai_response_error o
    { s with
      messages := s.messages ++ [⟨"user", t, none⟩],
      chat_history := s.chat_history ++ [⟨"user", [t]⟩] } e (by simpa using he)
  simp only [hmode, hrg] at hpe
  simp [submit_text_turn, hmode, hrg, ht, hpe]

theorem submit_audio_turn_fresh (a : Audio) (o : TurnOracles)
    (s : SessionState)
    (hmode : s.mode = "voice") (hfresh : ¬ some a = s.last_processed_audio) :
    submit_audio_turn (some a) o s =
      (process_ai_response o
        { s with
          last_processed_audio := some a,
          messages := s.messages ++
            [⟨"user", "🎙️ " ++ transcribe_audio o a, none⟩],
          chat_history := s.chat_history ++
            [⟨"user", [transcribe_audio o a]⟩] }).1 := by
  simp [submit_audio_turn, hmode, hfresh]

theorem take_two_append (l xs : List DialogueBlock)
    (h : l.take 2 = seedBlocks) : (l ++ xs).take 2 = seedBlocks := by
  have hlen : 2 ≤ l.length := by
    have hc := congrArg List.length h
    rw [List.length_take] at hc
    have hs : seedBlocks.length = 2 := rfl
    rw [hs] at hc
    exact min_eq_left_iff.mp hc
  rw [List.take_append_of_le_length hlen, h]

/-! ### Claims -/

/-- C10: in voice mode, an audio input value equal to the most recently
processed audio value (`last_processed_audio`) is ignored: the session
state — `messages`, `chat_history` and all other fields — is returned
unchanged, and this holds for every oracle, so no transcription or model
call outcome can influence the result (the handler never consults
them). -/
theorem c10_audio_dedup (s : SessionState) (o : TurnOracles) (a : Audio)
    (hmode : s.mode = "voice")
    (hlast : s.last_processed_audio = some a) :
    submit_audio_turn (some a) o s = s := by
  simp [submit_audio_turn, hmode, hlast]

theorem c10_audio_dedup_witness :
    voiceRepeatState.mode = "voice" ∧
    voiceRepeatState.last_processed_audio = some [3, 1, 4] ∧
    submit_audio_turn (some [3, 1, 4]) okOracles voiceRepeatState =
      voiceRepeatState :=
  ⟨rfl, rfl, c10_audio_dedup voiceRepeatState okOracles [3, 1, 4] rfl rfl⟩

/-- C7: when the transcription backend raises, `transcribe_audio`
returns the sentinel `"[Unintelligible Audio]"` instead of propagating
the error, and the voice turn is still recorded: the TurnLog gains a
user entry carrying the sentinel text (whatever the chat model then
does). -/
theorem c7_transcription_failure_sentinel (s : SessionState)
    (o : TurnOracles) (a : Audio) (e : String)
    (hmode : s.mode = "voice")
    (hfresh : ¬ some a = s.last_processed_audio)
    (htr : o.transcription a = Except.error e) :
    transcribe_audio o a = "[Unintelligible Audio]" ∧
    ∃ rest, (submit_audio_turn (some a) o s).messages =
      s.messages ++ ⟨"user", "🎙️ [Unintelligible Audio]", none⟩ :: rest := by
  have hts : transcribe_audio o a = "[Unintelligible Audio]" := by
    simp [transcribe_audio, htr]
  refine ⟨hts, ?_⟩
  rw [submit_audio_turn_fresh a o s hmode hfresh, hts]
  have happ : "🎙️ " ++ "[Unintelligible Audio]" = "🎙️ [Unintelligible Audio]" :=
    rfl
  rw [happ]
  cases hll : o.llm (s.chat_history ++ [⟨"user", ["[Unintelligible Audio]"]⟩]) with
  | error e2 =>
    rw [process_ai_response_error o
      { s with
        last_processed_audio := some a,
        messages := s.messages ++
          [⟨"user", "🎙️ [Unintelligible Audio]", none⟩],
        chat_history := s.chat_history ++
          [⟨"user", ["[Unintelligible Audio]"]⟩] } e2 (by simpa using hll)]
    exact ⟨[], by simp⟩
  | ok r =>
    rw [process_ai_response_ok o
      { s with
        last_processed_audio := some a,
        messages := s.messages ++
          [⟨"user", "🎙️ [Unintelligible Audio]", none⟩],
        chat_history := s.chat_history ++
          [⟨"user", ["[Unintelligible Audio]"]⟩] } r (by simpa using hll)]
    exact ⟨[⟨"assistant", r, get_audio_bytes o r⟩], by simp⟩

theorem c7_transcription_failure_sentinel_witness :
    failTransOracles.transcription [7] = Except.error "stt backend down" ∧
    transcribe_audio failTransOracles [7] = "[Unintelligible Audio]" ∧
    ∃ rest, (submit_audio_turn (some [7]) failTransOracles voiceState).messages =
      voiceState.messages ++ ⟨"user", "🎙️ [Unintelligible Audio]", none⟩ :: rest :=
  ⟨rfl,
   (c7_transcription_failure_sentinel voiceState failTransOracles [7]
      "stt backend down" rfl (by decide) rfl).1,
   (c7_transcription_failure_sentinel voiceState failTransOracles [7]
      "stt backend down" rfl (by decide) rfl).2⟩

/-- C8: `get_audio_bytes` tries the neural (Edge TTS) path first and
returns its result when it succeeds; on its failure it falls back to
gTTS; if both fail it returns `none` rather than raising (the function
is total). A synthesis failure never fails the turn: with both backends
down and a successful model call, `process_ai_response` still appends
the assistant entry, text-only (`audio = none`), and reports success. -/
theorem c8_synthesis_fallback_chain (t r : String) (s : SessionState)
    (o1 o2 o3 : TurnOracles) (a b : Audio) (e1 e2 e3 : String)
    (h1 : o1.neural t = Except.ok a)
    (h2 : o2.neural t = Except.error e1)
    (h3 : o2.gtts t = Except.ok b)
    (h4 : o3.neural r = Except.error e2)
    (h5 : o3.gtts r = Except.error e3)
    (h6 : o3.llm s.chat_history = Except.ok r) :
    get_audio_bytes o1 t = some a ∧
    get_audio_bytes o2 t = some b ∧
    get_audio_bytes o3 r = none ∧
    process_ai_response o3 s =
      ({ s with
          messages := s.messages ++ [⟨"assistant", r, none⟩],
          chat_history := s.chat_history ++ [⟨"model", [r]⟩] }, true) := by
  have hg : get_audio_bytes o3 r = none := by simp [get_audio_bytes, h4, h5]
  refine ⟨by simp [get_audio_bytes, h1], by simp [get_audio_bytes, h2, h3],
    hg, ?_⟩
  rw [process_ai_response_ok o3 s r h6, hg]

theorem c8_synthesis_fallback_chain_witness :
    get_audio_bytes neuralOkOracles "hello" = some [1, 2, 3] ∧
    get_audio_bytes gttsOnlyOracles "hello" = some [4, 5] ∧
    get_audio_bytes okOracles "Thank you for sharing." = none ∧
    process_ai_response okOracles initState =
      ({ initState with
          messages := initState.messages ++
            [⟨"assistant", "Thank you for sharing.", none⟩],
          chat_history := initState.chat_history ++
            [⟨"model", ["Thank you for sharing."]⟩] }, true) :=
  c8_synthesis_fallback_chain "hello" "Thank you for sharing." initState
    neuralOkOracles gttsOnlyOracles okOracles [1, 2, 3] [4, 5]
    "edge tts offline" "edge tts offline" "gtts offline"
    rfl rfl rfl rfl rfl rfl

/-- C6 counterexample: the claim says reset clears the TurnLog and
restores the DialogueBlock sequence to exactly the 2-entry seed; but on
the very next script run the setup section re-seeds `chat_history` with
THREE entries (seed pair plus welcome) and `messages` with the welcome
entry, so the observable post-reset TurnLog is not empty and the
DialogueBlock sequence does not have length 2. -/
theorem c6_counterexample :
    (reset finalizedChatState).chat_history.length ≠ 2 ∧
    (reset finalizedChatState).messages ≠ [] := by
  constructor
  · decide
  · decide

/-- C6 (amended): reset discards the whole session state in one step;
the observable post-reset state is the fresh-session state: the
finalized flag is false, no FinalReport payload is stored, and the logs
are re-seeded — `chat_history` holds the 2-entry seed plus the welcome
message and `messages` holds the single welcome entry. -/
theorem c6_reset_restores_fresh_state (s : SessionState) :
    reset s = initState ∧
    (reset s).messages = [⟨"assistant", welcome_msg, none⟩] ∧
    (reset s).chat_history = seedBlocks ++ [⟨"model", [welcome_msg]⟩] ∧
    (reset s).report_generated = false ∧
    (reset s).final_report_json = none :=
  ⟨rfl, rfl, rfl, rfl, rfl⟩

/-- C3 counterexample: the claim says report generation is blocked with
fewer than 3 TurnLog entries; but on a fresh session (TurnLog length 1)
the handler runs the model call and sets the finalized flag — there is
no minimum-length guard anywhere in the handler. -/
theorem c3_counterexample :
    initState.messages.length = 1 ∧
    (end_session (fun _ => Except.ok "report text") initState).report_generated
      = true :=
  ⟨rfl, rfl⟩

/-- C3 (amended): the End Session handler has no minimum-length
precondition: for any session in chat mode with the report not yet
generated — including TurnLog lengths 0, 1 and 2 — a successful model
call invokes finalization and sets the finalized flag. The only guards
are the view mode and the `report_generated` flag itself. -/
theorem c3_no_minimum_length_guard (s : SessionState)
    (llm : String → Except String String) (r : String)
    (hmode : s.mode = "chat") (hrg : s.report_generated = false)
    (hlen : s.messages.length < 3)
    (hllm : llm (report_prompt s.messages) = Except.ok r) :
    (end_session llm s).report_generated = true := by
  simp [end_session, hmode, hrg, hllm]

theorem c3_no_minimum_length_guard_witness :
    initState.messages.length < 3 ∧
    (end_session (fun _ => Except.ok "short session report")
      initState).report_generated = true :=
  ⟨by decide,
   c3_no_minimum_length_guard initState
     (fun _ => Except.ok "short session report") "short session report"
     rfl rfl (by decide) rfl⟩

/-- C1 counterexample: the claim says that when the report model call
succeeds but the payload fails JSON parsing, the finalized flag remains
false; but the handler sets `report_generated := true` as soon as the
model call returns, before any JSON parsing — here with the non-JSON
payload "oops" the flag is set. -/
theorem c1_counterexample :
    json_loads "oops" = none ∧
    (end_session (fun _ => Except.ok "oops") initState).report_generated
      = true :=
  ⟨rfl, rfl⟩

/-- C1 (amended): when the report model call succeeds but returns a
payload that fails JSON parsing, no FinalReport is produced (the display
step parses nothing and shows an error) and the raw payload string
remains stored for display — but the finalized flag is set to true, so
the session is NOT retryable. -/
theorem c1_malformed_report_not_retryable (s : SessionState)
    (llm : String → Except String String) (raw : String)
    (hmode : s.mode = "chat") (hrg : s.report_generated = false)
    (hllm : llm (report_prompt s.messages) = Except.ok raw)
    (hbad : json_loads raw = none) :
    (end_session llm s).report_generated = true ∧
    (end_session llm s).final_report_json = some raw ∧
    display_report (end_session llm s) = none := by
  have he : end_session llm s =
      { s with final_report_json := some raw, report_generated := true } := by
    simp [end_session, hmode, hrg, hllm]
  rw [he]
  refine ⟨rfl, rfl, ?_⟩
  simp [display_report, hbad]

theorem c1_malformed_report_not_retryable_witness :
    json_loads "oops" = none ∧
    (end_session (fun _ => Except.ok "oops") initState).report_generated
      = true ∧
    (end_session (fun _ => Except.ok "oops") initState).final_report_json
      = some "oops" ∧
    display_report (end_session (fun _ => Except.ok "oops") initState) = none :=
  ⟨rfl,
   (c1_malformed_report_not_retryable initState (fun _ => Except.ok "oops")
      "oops" rfl rfl rfl rfl).1,
   (c1_malformed_report_not_retryable initState (fun _ => Except.ok "oops")
      "oops" rfl rfl rfl rfl).2.1,
   (c1_malformed_report_not_retryable initState (fun _ => Except.ok "oops")
      "oops" rfl rfl rfl rfl).2.2⟩

/-- C4 counterexample: the claim says a model-call failure leaves the
session exactly as before, with neither the user nor the assistant entry
appended; but the handler appends the user entry BEFORE the model call,
so after a failing call the TurnLog has grown by one and the state
differs from the pre-turn state. -/
theorem c4_counterexample :
    (submit_text_turn "I feel sad" failLlmOracles initState).messages.length
      = initState.messages.length + 1 ∧
    submit_text_turn "I feel sad" failLlmOracles initState ≠ initState := by
  have hlen :
      (submit_text_turn "I feel sad" failLlmOracles initState).messages.length
        = 2 := rfl
  refine ⟨by rw [hlen]; rfl, fun h => ?_⟩
  have h2 := congrArg (fun st : SessionState => st.messages.length) h
  simp only [hlen] at h2
  exact absurd h2 (by decide)

/-- C4 (amended): when the model call for a text turn fails, the
assistant entry is not appended and the handler reports failure, but the
user entry appended before the call remains: the post-turn state is the
pre-turn state with exactly the user entry added to `messages` and to
`chat_history` (all other fields unchanged) — not the untouched pre-turn
state. -/
theorem c4_model_failure_keeps_user_entry (t e : String) (o : TurnOracles)
    (s : SessionState)
    (hmode : s.mode = "chat") (hrg : s.report_generated = false)
    (ht : ¬ t = "")
    (he : o.llm (s.chat_history ++ [⟨"user", [t]⟩]) = Except.error e) :
    submit_text_turn t o s =
      { s with
        messages := s.messages ++ [⟨"user", t, none⟩],
        chat_history := s.chat_history ++ [⟨"user", [t]⟩] } :=
  submit_text_turn_error t o s e hmode hrg ht he

theorem c4_model_failure_keeps_user_entry_witness :
    failLlmOracles.llm (initState.chat_history ++ [⟨"user", ["I feel sad"]⟩])
      = Except.error "network unreachable" ∧
    submit_text_turn "I feel sad" failLlmOracles initState =
      { initState with
        messages := initState.messages ++ [⟨"user", "I feel sad", none⟩],
        chat_history := initState.chat_history ++
          [⟨"user", ["I feel sad"]⟩] } :=
  ⟨rfl,
   c4_model_failure_keeps_user_entry "I feel sad" "network unreachable"
     failLlmOracles initState rfl rfl (by decide) rfl⟩

/-- C5 counterexample: the claim says that once the finalized flag is
true, submitting any further turn in any mode is a no-op; but the voice
view has no `report_generated` guard — in a finalized voice-mode session
a fresh audio input is processed and two entries are appended to the
TurnLog. -/
theorem c5_counterexample :
    finalizedVoiceState.report_generated = true ∧
    (submit_audio_turn (some [9, 9]) okOracles
        finalizedVoiceState).messages.length
      = finalizedVoiceState.messages.length + 2 :=
  ⟨rfl, rfl⟩

/-- C5 (amended): after finalization, text turns in the chat view are
rejected unchanged (the input widget is guarded by `report_generated`),
but voice-mode audio turns are NOT blocked: a fresh audio input in a
finalized voice-mode session is transcribed, sent to the model, and
appends its two entries to the TurnLog. -/
theorem c5_finalized_turn_handling (s s2 : SessionState) (t : String)
    (o o2 : TurnOracles) (a : Audio)
    (hrg : s.report_generated = true)
    (h2rg : s2.report_generated = true) (h2mode : s2.mode = "voice")
    (h2fresh : ¬ some a = s2.last_processed_audio)
    (hllm : ∀ h, ∃ r, o2.llm h = Except.ok r) :
    submit_text_turn t o s = s ∧
    (submit_audio_turn (some a) o2 s2).messages.length
      = s2.messages.length + 2 := by
  constructor
  · by_cases hm : s.mode = "voice" <;> simp [submit_text_turn, hm, hrg]
  · rw [submit_audio_turn_fresh a o2 s2 h2mode h2fresh]
    obtain ⟨r, hr⟩ :=
      hllm (s2.chat_history ++ [⟨"user", [transcribe_audio o2 a]⟩])
    rw [process_ai_response_ok o2
      { s2 with
        last_processed_audio := some a,
        messages := s2.messages ++
          [⟨"user", "🎙️ " ++ transcribe_audio o2 a, none⟩],
        chat_history := s2.chat_history ++
          [⟨"user", [transcribe_audio o2 a]⟩] } r (by simpa using hr)]
    simp

theorem c5_finalized_turn_handling_witness :
    finalizedChatState.report_generated = true ∧
    finalizedVoiceState.report_generated = true ∧
    submit_text_turn "hello" okOracles finalizedChatState
      = finalizedChatState ∧
    (submit_audio_turn (some [9, 9]) okOracles
        finalizedVoiceState).messages.length
      = finalizedVoiceState.messages.length + 2 :=
  ⟨rfl, rfl,
   (c5_finalized_turn_handling finalizedChatState finalizedVoiceState "hello"
      okOracles okOracles [9, 9] rfl rfl rfl (by decide)
      (fun _ => ⟨"Thank you for sharing.", rfl⟩)).1,
   (c5_finalized_turn_handling finalizedChatState finalizedVoiceState "hello"
      okOracles okOracles [9, 9] rfl rfl rfl (by decide)
      (fun _ => ⟨"Thank you for sharing.", rfl⟩)).2⟩

/-- For a chat-mode, non-finalized session, N valid successfully
completed text turns add 2N entries to both `messages` and
`chat_history`. -/
theorem run_text_turns_lengths : ∀ (ts : List TextTurn) (s : SessionState),
    s.mode = "chat" → s.report_generated = false →
    (∀ t ∈ ts, ¬ t.text = "" ∧ ∀ h, ∃ r, t.oracles.llm h = Except.ok r) →
    (run_text_turns ts s).messages.length
      = s.messages.length + 2 * ts.length ∧
    (run_text_turns ts s).chat_history.length
      = s.chat_history.length + 2 * ts.length := by
  intro ts
  induction ts with
  | nil =>
    intro s _ _ _
    simp [run_text_turns]
  | cons t ts ih =>
    intro s hmode hrg hts
    obtain ⟨ht, hllm⟩ := hts t (List.mem_cons_self t ts)
    obtain ⟨r, hr⟩ := hllm (s.chat_history ++ [⟨"user", [t.text]⟩])
    have hstep := submit_text_turn_ok t.text t.oracles s r hmode hrg ht hr
    obtain ⟨g1, g2⟩ := ih (submit_text_turn t.text t.oracles s)
      (by rw [hstep]; exact hmode) (by rw [hstep]; exact hrg)
      (fun u hu => hts u (List.mem_cons_of_mem t hu))
    refine ⟨?_, ?_⟩
    · show (run_text_turns ts (submit_text_turn t.text t.oracles s)).messages.length = _
      rw [g1, hstep]
      simp only [List.length_append, List.length_cons, List.length_nil]
      omega
    · show (run_text_turns ts (submit_text_turn t.text t.oracles s)).chat_history.length = _
      rw [g2, hstep]
      simp only [List.length_append, List.length_cons, List.length_nil]
      omega

/-- C2 counterexample: the claim says N valid text turns give TurnLog
length exactly 2N and DialogueBlock length exactly 2N + 2; but the fresh
session already holds the welcome message (TurnLog length 1,
DialogueBlock length 3), so after one successful turn the lengths are 3
and 5, not 2 and 4. -/
theorem c2_counterexample :
    (run_text_turns [⟨"I feel okay", okOracles⟩] initState).messages.length
      ≠ 2 * 1 ∧
    (run_text_turns [⟨"I feel okay", okOracles⟩] initState).chat_history.length
      ≠ 2 * 1 + 2 := by
  have hm : (run_text_turns [⟨"I feel okay", okOracles⟩]
      initState).messages.length = 3 := rfl
  have hc : (run_text_turns [⟨"I feel okay", okOracles⟩]
      initState).chat_history.length = 5 := rfl
  exact ⟨by rw [hm]; decide, by rw [hc]; decide⟩

/-- C2 (amended): for every sequence of N successfully completed valid
text turns starting from a fresh session, the TurnLog (`messages`) has
length exactly 2N + 1 (the seeded welcome message plus one user and one
assistant entry per turn) and the DialogueBlock sequence
(`chat_history`) has length exactly 2N + 3 (the two seed entries, the
welcome entry, plus the turn entries). -/
theorem c2_turn_log_lengths (ts : List TextTurn)
    (hts : ∀ t ∈ ts, ¬ t.text = "" ∧ ∀ h, ∃ r, t.oracles.llm h = Except.ok r) :
    (run_text_turns ts initState).messages.length = 2 * ts.length + 1 ∧
    (run_text_turns ts initState).chat_history.length = 2 * ts.length + 3 := by
  obtain ⟨g1, g2⟩ := run_text_turns_lengths ts initState rfl rfl hts
  have h1 : initState.messages.length = 1 := rfl
  have h2 : initState.chat_history.length = 3 := rfl
  constructor
  · rw [g1, h1]; omega
  · rw [g2, h2]; omega

theorem c2_turn_log_lengths_witness :
    (run_text_turns [⟨"I feel okay", okOracles⟩] initState).messages.length
      = 2 * 1 + 1 ∧
    (run_text_turns [⟨"I feel okay", okOracles⟩] initState).chat_history.length
      = 2 * 1 + 3 := by
  have hts : ∀ t ∈ [TextTurn.mk "I feel okay" okOracles],
      ¬ t.text = "" ∧ ∀ h, ∃ r, t.oracles.llm h = Except.ok r := by
    intro t htm
    rw [List.mem_singleton] at htm
    subst htm
    exact ⟨by decide, fun h => ⟨"Thank you for sharing.", rfl⟩⟩
  simpa using c2_turn_log_lengths [TextTurn.mk "I feel okay" okOracles] hts

/-- A text turn only ever appends to `chat_history`, so it preserves the
seed pair at its head. -/
theorem submit_text_turn_seed (t : String) (o : TurnOracles)
    (s : SessionState) (h : s.chat_history.take 2 = seedBlocks) :
    (submit_text_turn t o s).chat_history.take 2 = seedBlocks := by
  unfold submit_text_turn
  split
  · exact h
  split
  · exact h
  split
  · exact h
  obtain ⟨xs, hxs⟩ := process_chat_shape o
    { s with
      messages := s.messages ++ [⟨"user", t, none⟩],
      chat_history := s.chat_history ++ [⟨"user", [t]⟩] }
  rw [hxs]
  show ((s.chat_history ++ [DialogueBlock.mk "user" [t]]) ++ xs).take 2
    = seedBlocks
  rw [List.append_assoc]
  exact take_two_append _ _ h

/-- An audio turn only ever appends to `chat_history`, so it preserves
the seed pair at its head. -/
theorem submit_audio_turn_seed (av : Option Audio) (o : TurnOracles)
    (s : SessionState) (h : s.chat_history.take 2 = seedBlocks) :
    (submit_audio_turn av o s).chat_history.take 2 = seedBlocks := by
  cases av with
  | none =>
    unfold submit_audio_turn
    split
    · exact h
    · exact h
  | some a =>
    unfold submit_audio_turn
    split
    · dsimp only
      split
      · exact h
      obtain ⟨xs, hxs⟩ := process_chat_shape o
        { s with
          last_processed_audio := some a,
          messages := s.messages ++
            [⟨"user", "🎙️ " ++ transcribe_audio o a, none⟩],
          chat_history := s.chat_history ++
            [⟨"user", [transcribe_audio o a]⟩] }
      rw [hxs]
      show ((s.chat_history ++
        [DialogueBlock.mk "user" [transcribe_audio o a]]) ++ xs).take 2
        = seedBlocks
      rw [List.append_assoc]
      exact take_two_append _ _ h
    · exact h

/-- Report generation never touches `chat_history`. -/
theorem end_session_chat_history (llm : String → Except String String)
    (s : SessionState) :
    (end_session llm s).chat_history = s.chat_history := by
  unfold end_session
  split
  · rfl
  split
  · rfl
  cases llm (report_prompt s.messages) <;> rfl

/-- C9: in every reachable session state, the first two entries of the
DialogueBlock sequence are the fixed system instruction and its fixed
acknowledgment: every handler only appends after them (or leaves
`chat_history` alone), and reset returns to a state re-seeded with
them. -/
theorem c9_seed_pair_invariant (s : SessionState) (hr : Reachable s) :
    s.chat_history.take 2 = seedBlocks := by
  induction hr with
  | fresh => rfl
  | text_turn t o _ ih => exact submit_text_turn_seed t o _ ih
  | audio_turn a o _ ih => exact submit_audio_turn_seed a o _ ih
  | report llm _ ih => rw [end_session_chat_history]; exact ih
  | reset_app _ _ => rfl
  | voice_on _ ih => exact ih
  | voice_off _ ih => exact ih

theorem c9_seed_pair_invariant_witness :
    Reachable initState ∧ initState.chat_history.take 2 = seedBlocks :=
  ⟨Reachable.fresh, c9_seed_pair_invariant initState Reachable.fresh⟩

end PsychApp
